import Mathlib

/-!
Shallow embedding of the `ChangeTracker` class from `src/src/index.ts` of the
frostoven/change-tracker repository, together with theorems settling the
specification claims about it.

Modelling conventions:
* JavaScript values handed to `setValue`/the constructor are modelled by
  `JVal`: either the distinguished `undefined` or an integer payload.
* Callback functions are identified by natural-number ids; JavaScript `===`
  on function references becomes equality of ids.
* Every operation that may invoke callbacks returns, next to the updated
  tracker state, the ordered list of invocations it performed, as
  `(callback id, argument)` pairs.
* The field `_singleListeners` is `null`able in the source (it is set to
  `null` inside the first `setValue` call, see line 190 of `index.ts`), so it
  is modelled as `Option (List Nat)`; `removeGetOnceListener` dereferences it
  unconditionally and therefore returns `Except String` (an `error` models
  the thrown `TypeError`).
* Callback bodies executed during a `setValue` cycle are modelled by an
  explicit action function `Act`; `passiveAct` is the callback that does
  nothing to the tracker, matching plain observer callbacks.
-/

namespace ChangeTracker

/-- A JavaScript value: `undefined` or a concrete (integer) payload. -/
inductive JVal where
  | undef : JVal
  | num : Int → JVal
deriving DecidableEq, Repr

/-- The test `typeof v !== undefined` from the constructor (line 108). -/
def JVal.isSet : JVal → Bool
  | .undef => false
  | .num _ => true

/-- One callback invocation: which callback ran, and with which argument. -/
abbrev Call := Nat × JVal

/-- The state of a `ChangeTracker` instance (fields of the class).
`singleListeners` is an `Option` because `setValue` assigns `null` to it. -/
structure Tracker where
  cached : JVal
  valueAlreadySet : Bool
  singleListeners : Option (List Nat)
  multiListeners : List Nat
  nextListeners : List Nat
deriving DecidableEq, Repr

/-- The constructor (lines 99–114): stores `initialValue` into `_cached`,
sets `_valueAlreadySet` from the force flag or from
`typeof initialValue !== 'undefined'`, and creates three empty listener
arrays. -/
def mkTracker (initialValue : JVal) (forceSetFlag : Bool) : Tracker :=
  { cached := initialValue
    valueAlreadySet := if forceSetFlag then true else initialValue.isSet
    singleListeners := some []
    multiListeners := []
    nextListeners := [] }

/-- The `cachedValue` getter (lines 120–122). -/
def cachedValue (t : Tracker) : JVal :=
  t.cached

/-- Method `getOnce` (lines 136–143): if the value is already set, invoke the
callback immediately with the cached value; otherwise push it onto
`_singleListeners`. -/
def getOnce (t : Tracker) (cb : Nat) : Tracker × List Call :=
  if t.valueAlreadySet then
    (t, [(cb, t.cached)])
  else
    ({ t with singleListeners := t.singleListeners.map (fun l => l ++ [cb]) }, [])

/-- Method `getEveryChange` (lines 150–155): always push onto `_multiListeners`,
then invoke immediately when the value is already set. -/
def getEveryChange (t : Tracker) (cb : Nat) : Tracker × List Call :=
  let t' := { t with multiListeners := t.multiListeners ++ [cb] }
  if t'.valueAlreadySet then
    (t', [(cb, t'.cached)])
  else
    (t', [])

/-- Method `getNext` (lines 162–164): push onto `_nextListeners`; never invokes. -/
def getNext (t : Tracker) (cb : Nat) : Tracker :=
  { t with nextListeners := t.nextListeners ++ [cb] }

/-- The behaviour of callback bodies during a notification cycle: given the
callback id being invoked and the argument it receives, transform the
tracker state (a callback may call back into the tracker). -/
abbrev Act := Nat → JVal → Tracker → Tracker

/-- A callback that only observes and does not touch the tracker. -/
def passiveAct : Act := fun _ _ s => s

/-- Method `setValue` (lines 170–212), parametrised by the behaviour `act` of the
callbacks it invokes.  Mirrors the source statement by statement:
store the value; on the first assignment gather `_singleListeners` and null
the field; snapshot `_nextListeners` and reset it to `[]`; gather
`_multiListeners`; only then invoke every gathered callback in order,
passing the (new) value to each. -/
def setValueWith (act : Act) (t : Tracker) (v : JVal) : Tracker × List Call :=
  let t1 := { t with cached := v }
  let gathered :=
    if t1.valueAlreadySet then
      (t1, ([] : List Nat))
    else
      ({ t1 with valueAlreadySet := true, singleListeners := none },
        t1.singleListeners.getD [])
  let t2 := gathered.1
  let once := gathered.2
  let nextSnapshot := t2.nextListeners
  let t3 := { t2 with nextListeners := [] }
  let callbacks := once ++ nextSnapshot ++ t3.multiListeners
  let t4 := callbacks.foldl (fun s cb => act cb v s) t3
  (t4, callbacks.map (fun cb => (cb, v)))

/-- Method `setValue` with plain observer callbacks. -/
def setValue (t : Tracker) (v : JVal) : Tracker × List Call :=
  setValueWith passiveAct t v

/-- Method `setSilent` (lines 220–222): store the value; nothing else happens, and
no callback is invoked. -/
def setSilent (t : Tracker) (v : JVal) : Tracker × List Call :=
  ({ t with cached := v }, [])

/-- Method `removeGetOnceListener` (lines 229–232): `indexOf` on
`_singleListeners`, which is `null` after the first `setValue`; in that case
the source throws a `TypeError`, modelled as `Except.error`.  Otherwise
splice out the first occurrence and report whether one was found. -/
def removeGetOnceListener (t : Tracker) (cb : Nat) :
    Except String (Tracker × Bool) :=
  match t.singleListeners with
  | none => Except.error "TypeError: cannot read indexOf of null"
  | some l =>
      if cb ∈ l then
        Except.ok ({ t with singleListeners := some (l.erase cb) }, true)
      else
        Except.ok (t, false)

/-- Method `removeGetEveryChangeListener` (lines 239–242): splice out the first
occurrence from `_multiListeners`, reporting whether one was found. -/
def removeGetEveryChangeListener (t : Tracker) (cb : Nat) : Tracker × Bool :=
  if cb ∈ t.multiListeners then
    ({ t with multiListeners := t.multiListeners.erase cb }, true)
  else
    (t, false)

/-- Method `removeGetNextListener` (lines 249–252): splice out the first occurrence
from `_nextListeners`, reporting whether one was found. -/
def removeGetNextListener (t : Tracker) (cb : Nat) : Tracker × Bool :=
  if cb ∈ t.nextListeners then
    ({ t with nextListeners := t.nextListeners.erase cb }, true)
  else
    (t, false)

/-- The `cachedValue` setter (lines 124–129): emits a console warning and
then delegates to `setValue`.  The warning text is returned alongside. -/
def cachedValueSet (t : Tracker) (v : JVal) :
    (Tracker × List Call) × List String :=
  (setValue t v,
    ["ChangeTracker.cached should not be set directly. Use .setValue() instead."])

/-- How many times callback `cb` is invoked in a trace. -/
def callsTo (cb : Nat) (tr : List Call) : Nat :=
  tr.countP (fun c => c.1 == cb)

/-- The public operations of the class, for statements about arbitrary
operation sequences. -/
inductive Op where
  | getOnceOp : Nat → Op
  | getEveryChangeOp : Nat → Op
  | getNextOp : Nat → Op
  | setValueOp : JVal → Op
  | setSilentOp : JVal → Op
  | removeOnceOp : Nat → Op
  | removeEveryOp : Nat → Op
  | removeNextOp : Nat → Op
deriving DecidableEq, Repr

/-- State transition of one public operation (with observer callbacks).  A
thrown `TypeError` in `removeGetOnceListener` leaves the state unchanged,
as in the source, where the throw happens before any mutation. -/
def step (t : Tracker) (op : Op) : Tracker :=
  match op with
  | .getOnceOp cb => (getOnce t cb).1
  | .getEveryChangeOp cb => (getEveryChange t cb).1
  | .getNextOp cb => getNext t cb
  | .setValueOp v => (setValue t v).1
  | .setSilentOp v => (setSilent t v).1
  | .removeOnceOp cb =>
      match removeGetOnceListener t cb with
      | .ok r => r.1
      | .error _ => t
  | .removeEveryOp cb => (removeGetEveryChangeListener t cb).1
  | .removeNextOp cb => (removeGetNextListener t cb).1

/-- Whether an operation is a (non-silent) `setValue`. -/
def Op.isSetValueOp : Op → Bool
  | .setValueOp _ => true
  | _ => false

/-- Running a list of values through successive `setValue` calls,
concatenating the traces of all cycles. -/
def setValues (t : Tracker) (vs : List JVal) : Tracker × List Call :=
  match vs with
  | [] => (t, [])
  | v :: rest =>
      let r := setValue t v
      let r' := setValues r.1 rest
      (r'.1, r.2 ++ r'.2)

end ChangeTracker

namespace ChangeTracker

/-- Applying `setValue` with observer callbacks leaves a `true` already-set flag
`true`, clears `_nextListeners`, and leaves `_multiListeners` untouched. -/
theorem setValue_fst (t : Tracker) (v : JVal) :
    (setValue t v).1 =
      { cached := v
        valueAlreadySet := true
        singleListeners := if t.valueAlreadySet then t.singleListeners else none
        multiListeners := t.multiListeners
        nextListeners := [] } := by
  cases h : t.valueAlreadySet <;>
    simp [setValue, setValueWith, passiveAct, h, List.foldl_fixed]

/-- The invocation trace of a `setValue` cycle, in gathering order:
the pending once-listeners (first assignment only), then the snapshot of
the next-listeners, then the every-change listeners. -/
theorem setValue_snd (t : Tracker) (v : JVal) :
    (setValue t v).2 =
      ((if t.valueAlreadySet then [] else t.singleListeners.getD []) ++
        t.nextListeners ++ t.multiListeners).map (fun cb => (cb, v)) := by
  cases h : t.valueAlreadySet <;>
    simp [setValue, setValueWith, passiveAct, h]

/-- One public operation changes the already-set flag exactly when it is a
`setValue`: the flag afterwards is the flag before OR-ed with whether the
operation was a `setValue`. -/
theorem step_valueAlreadySet (t : Tracker) (op : Op) :
    (step t op).valueAlreadySet = (t.valueAlreadySet || op.isSetValueOp) := by
  cases op with
  | getOnceOp cb =>
      cases h : t.valueAlreadySet <;> simp [step, getOnce, h, Op.isSetValueOp]
  | getEveryChangeOp cb =>
      cases h : t.valueAlreadySet <;>
        simp [step, getEveryChange, h, Op.isSetValueOp]
  | getNextOp cb => simp [step, getNext, Op.isSetValueOp]
  | setValueOp v => simp [step, setValue_fst, Op.isSetValueOp]
  | setSilentOp v => simp [step, setSilent, Op.isSetValueOp]
  | removeOnceOp cb =>
      cases h : t.singleListeners with
      | none => simp [step, removeGetOnceListener, h, Op.isSetValueOp]
      | some l =>
          by_cases hm : cb ∈ l <;>
            simp [step, removeGetOnceListener, h, hm, Op.isSetValueOp]
  | removeEveryOp cb =>
      by_cases hm : cb ∈ t.multiListeners <;>
        simp [step, removeGetEveryChangeListener, hm, Op.isSetValueOp]
  | removeNextOp cb =>
      by_cases hm : cb ∈ t.nextListeners <;>
        simp [step, removeGetNextListener, hm, Op.isSetValueOp]

/-- Over a whole operation sequence, the flag ends `true` iff it started
`true` or some `setValue` occurred in the sequence. -/
theorem foldl_step_valueAlreadySet (ops : List Op) (t : Tracker) :
    (ops.foldl step t).valueAlreadySet =
      (t.valueAlreadySet || ops.any Op.isSetValueOp) := by
  induction ops generalizing t with
  | nil => simp
  | cons op rest ih =>
      simp [List.foldl_cons, ih, step_valueAlreadySet, Bool.or_assoc]

/-- C4: the `initialized` flag is a one-way switch.  At construction it is
`forceSetFlag OR (initialValue set)`; each operation leaves it at
`(previous value) OR (operation is setValue)` — so no operation (including
`setSilent` and the removals) ever clears it, and over any operation
sequence it is set exactly by the first `setValue` (or from birth), hence
transitions false→true at most once. -/
theorem c4_initialized_one_way (iv : JVal) (force : Bool) (t : Tracker)
    (op : Op) (ops : List Op) :
    (mkTracker iv force).valueAlreadySet = (force || iv.isSet) ∧
    (step t op).valueAlreadySet = (t.valueAlreadySet || op.isSetValueOp) ∧
    (ops.foldl step t).valueAlreadySet =
      (t.valueAlreadySet || ops.any Op.isSetValueOp) := by
  refine ⟨?_, step_valueAlreadySet t op, foldl_step_valueAlreadySet ops t⟩
  cases force <;> simp [mkTracker]

/-- The P7 scenario tracker after registering `getOnce(A=0)`,
`getNext(B=1)`, `getEveryChange(C=2)` on a fresh uninitialized tracker. -/
def p7Start : Tracker :=
  (getEveryChange (getNext ((getOnce (mkTracker .undef false) 0).1) 1) 2).1

/-- The P7 scenario, first assignment: `setValue(1)`. -/
def p7Cycle1 : Tracker × List Call := setValue p7Start (.num 1)

/-- The P7 scenario, late registration `getOnce(D=3)`. -/
def p7LateOnce : Tracker × List Call := getOnce p7Cycle1.1 3

/-- The P7 scenario, second assignment: `setValue(2)`. -/
def p7Cycle2 : Tracker × List Call := setValue p7LateOnce.1 (.num 2)

/-- The P7 scenario, third assignment after `getNext(E=4)`: `setValue(3)`. -/
def p7Cycle3 : Tracker × List Call :=
  setValue (getNext p7Cycle2.1 4) (.num 3)

/-- C1: the P7 ordering scenario.  From an uninitialized tracker, register
`getOnce(A)`, `getNext(B)`, `getEveryChange(C)`; `setValue(1)` invokes
exactly A(1), B(1), C(1) in that order; a subsequent `getOnce(D)` fires
D(1) immediately; `setValue(2)` invokes only C(2); after `getNext(E)`,
`setValue(3)` invokes exactly E(3) then C(3). -/
theorem c1_ordering_scenario :
    p7Cycle1.2 = [(0, .num 1), (1, .num 1), (2, .num 1)] ∧
    p7LateOnce.2 = [(3, .num 1)] ∧
    p7Cycle2.2 = [(2, .num 2)] ∧
    p7Cycle3.2 = [(4, .num 3), (2, .num 3)] := by
  decide

/-- Counting invocations of `cb` in the trace of a cycle counts the
occurrences of `cb` in the gathered callback list. -/
theorem callsTo_map (cb : Nat) (v : JVal) (l : List Nat) :
    callsTo cb (l.map (fun c => (c, v))) = l.count cb := by
  simp [callsTo, List.countP_map, List.count]
  rfl

/-- The counter `callsTo` distributes over trace concatenation. -/
theorem callsTo_append (cb : Nat) (a b : List Call) :
    callsTo cb (a ++ b) = callsTo cb a + callsTo cb b := by
  simp [callsTo, List.countP_append]

/-- Once the tracker is initialized and `cb` sits in neither pending
collection, no number of further `setValue` calls ever invokes `cb`. -/
theorem callsTo_setValues_eq_zero (cb : Nat) (zs : List JVal) (t : Tracker)
    (hset : t.valueAlreadySet = true) (hn : cb ∉ t.nextListeners)
    (hm : cb ∉ t.multiListeners) :
    callsTo cb (setValues t zs).2 = 0 := by
  induction zs generalizing t with
  | nil => simp [setValues, callsTo]
  | cons z rest ih =>
      have hz : callsTo cb (setValue t z).2 = 0 := by
        rw [setValue_snd, callsTo_map, hset]
        simp [List.count_append, List.count_eq_zero.mpr hn,
          List.count_eq_zero.mpr hm]
      have hrest : callsTo cb (setValues (setValue t z).1 rest).2 = 0 := by
        apply ih
        · rw [setValue_fst]
        · rw [setValue_fst]; simp
        · rw [setValue_fst]; simpa using hm
      simp [setValues, callsTo_append, hz, hrest]

/-- C3: `getOnce` semantics.  On an initialized tracker, `getOnce(cb)`
invokes `cb` once with the cached value, immediately, and leaves the state
(hence every collection) unchanged.  On an uninitialized tracker, it
invokes nothing; the first subsequent `setValue(Y)` invokes `cb(Y)` exactly
once, and no sequence of later `setValue` calls ever invokes `cb` again. -/
theorem c3_getOnce_semantics (t : Tracker) (cb : Nat) (y : JVal)
    (zs : List JVal) (sl : List Nat) :
    (t.valueAlreadySet = true → getOnce t cb = (t, [(cb, t.cached)])) ∧
    (t.valueAlreadySet = false →
      t.singleListeners = some sl →
      cb ∉ sl → cb ∉ t.nextListeners → cb ∉ t.multiListeners →
      (getOnce t cb).2 = [] ∧
      callsTo cb (setValue (getOnce t cb).1 y).2 = 1 ∧
      callsTo cb (setValues (setValue (getOnce t cb).1 y).1 zs).2 = 0) := by
  constructor
  · intro hset
    simp [getOnce, hset]
  · intro hset hsl hnotsl hnotnext hnotmulti
    have h1 : (getOnce t cb).1 =
        { t with singleListeners := some (sl ++ [cb]) } := by
      simp [getOnce, hset, hsl]
    have h2 : (getOnce t cb).2 = [] := by
      simp [getOnce, hset]
    refine ⟨h2, ?_, ?_⟩
    · rw [h1, setValue_snd, callsTo_map]
      simp [hset, List.count_append, List.count_eq_zero.mpr hnotsl,
        List.count_eq_zero.mpr hnotnext, List.count_eq_zero.mpr hnotmulti]
    · apply callsTo_setValues_eq_zero
      · rw [setValue_fst]
      · rw [setValue_fst]; simp
      · rw [setValue_fst]; simpa [h1] using hnotmulti

/-- Witness for C3 at concrete inputs: an initialized tracker holding 1
(immediate invocation branch) and a fresh uninitialized tracker (deferred
branch, two further assignments after the first). -/
theorem c3_getOnce_semantics_witness :
    (getOnce (mkTracker (.num 1) false) 5 =
      (mkTracker (.num 1) false, [(5, .num 1)])) ∧
    ((getOnce (mkTracker .undef false) 5).2 = [] ∧
      callsTo 5 (setValue (getOnce (mkTracker .undef false) 5).1 (.num 2)).2 = 1 ∧
      callsTo 5 (setValues (setValue (getOnce (mkTracker .undef false) 5).1
        (.num 2)).1 [.num 3, .num 4]).2 = 0) := by
  constructor
  · exact (c3_getOnce_semantics (mkTracker (.num 1) false) 5 (.num 2) [] []).1
      (by decide)
  · exact (c3_getOnce_semantics (mkTracker .undef false) 5 (.num 2)
      [.num 3, .num 4] []).2 (by decide) (by decide) (by decide) (by decide)
      (by decide)

/-- C2: the claim that removal after initialization reports `false` rather
than raising fails on the code.  On a tracker initialized by `setValue`,
`removeGetOnceListener` dereferences the nulled `_singleListeners` field and
throws a `TypeError` instead of returning a boolean. -/
theorem c2_removeGetOnce_after_setValue_throws :
    removeGetOnceListener ((setValue (mkTracker .undef false) (.num 1)).1) 0 =
      Except.error "TypeError: cannot read indexOf of null" ∧
    (setValue (mkTracker .undef false) (.num 1)).1.valueAlreadySet = true :=
  ⟨rfl, rfl⟩

/-- During one cycle, a callback that removes the listener with id 2 from
the every-change collection while the listener with id 1 runs. -/
def removerAct : Act := fun c _ s =>
  if c == 1 then (removeGetEveryChangeListener s 2).1 else s

/-- C5: the notification list of a `setValue` cycle is fully built before
any callback runs, so the trace of the cycle — its participant set and
order — is the same whatever the callbacks do to the tracker
(`setValueWith act` versus plain observers).  Concretely: with every-change
listeners `[1, 2]`, even when callback 1 removes listener 2 during the
cycle (the removal does take effect on the state), callback 2 is still
invoked in that cycle, in its original position. -/
theorem c5_snapshot_fixes_cycle (act : Act) (t : Tracker) (v : JVal) :
    (setValueWith act t v).2 = (setValue t v).2 ∧
    (let t0 : Tracker :=
      { cached := .num 0, valueAlreadySet := true, singleListeners := none
        multiListeners := [1, 2], nextListeners := [] }
     (setValueWith removerAct t0 (.num 5)).2 =
        [(1, .num 5), (2, .num 5)] ∧
     (setValueWith removerAct t0 (.num 5)).1.multiListeners = [1]) := by
  constructor
  · cases h : t.valueAlreadySet <;>
      simp [setValueWith, setValue, passiveAct, h]
  · decide

/-- During one cycle, the behaviour of a callback `cb` that re-registers
itself through `getNext` when invoked. -/
def reRegAct (cb : Nat) : Act := fun c _ s =>
  if c == cb then getNext s cb else s

/-- Folding `reRegAct cb` over an invocation list only appends one copy of
`cb` to `_nextListeners` per invocation of `cb`; every other field is left
alone. -/
theorem reRegAct_foldl (cb : Nat) (v : JVal) (l : List Nat) (s : Tracker) :
    l.foldl (fun s c => reRegAct cb c v s) s =
      { s with nextListeners :=
          s.nextListeners ++ List.replicate (l.count cb) cb } := by
  induction l generalizing s with
  | nil => simp
  | cons c rest ih =>
      simp only [List.foldl_cons]
      by_cases h : c = cb
      · subst h
        have hstep : reRegAct c c v s =
            { s with nextListeners := s.nextListeners ++ [c] } := by
          simp [reRegAct, getNext]
        rw [hstep, ih, List.count_cons_self, List.append_assoc,
          List.singleton_append, ← List.replicate_succ]
      · have hstep : reRegAct cb c v s = s := by
          simp [reRegAct, h]
        rw [hstep, ih, List.count_cons_of_ne (fun hh => h hh.symm)]

/-- The trace of a cycle does not depend on what the callbacks do: it is
the gathered list — pending once-listeners on a first assignment, then the
next-listener snapshot, then the every-change listeners — paired with the
assigned value. -/
theorem setValueWith_snd (act : Act) (t : Tracker) (v : JVal) :
    (setValueWith act t v).2 =
      ((if t.valueAlreadySet then [] else t.singleListeners.getD []) ++
        t.nextListeners ++ t.multiListeners).map (fun cb => (cb, v)) := by
  cases h : t.valueAlreadySet <;> simp [setValueWith, h]

/-- The state after a cycle whose every invocation of `cb` re-registers
`cb` via `getNext`: on any tracker, initialized or not, the new
next-listeners are one copy of `cb` per invocation of `cb` in the cycle,
and the other fields evolve exactly as in a plain `setValue`. -/
theorem setValueWith_reRegAct_fst (cb : Nat) (t : Tracker) (v : JVal) :
    (setValueWith (reRegAct cb) t v).1 =
      { cached := v
        valueAlreadySet := true
        singleListeners :=
          if t.valueAlreadySet then t.singleListeners else none
        multiListeners := t.multiListeners
        nextListeners := List.replicate
          (((if t.valueAlreadySet then [] else t.singleListeners.getD []) ++
            t.nextListeners ++ t.multiListeners).count cb) cb } := by
  cases h : t.valueAlreadySet <;>
    simp [setValueWith, h, reRegAct_foldl, Nat.add_assoc]

/-- C6: for every tracker — initialized or still on its first-ever
assignment — a `getNext` listener `cb` (pending once, and in none of the
other gathered collections) that re-registers itself via `getNext` while
being invoked in cycle N is invoked exactly once in cycle N; afterwards it
sits exactly once in `_nextListeners`, and the following `setValue` cycle
invokes it exactly once again. -/
theorem c6_reentrant_getNext (t : Tracker) (v w : JVal) (cb : Nat)
    (hsl : cb ∉ (if t.valueAlreadySet then []
      else t.singleListeners.getD []))
    (hcount : t.nextListeners.count cb = 1)
    (hm : cb ∉ t.multiListeners) :
    callsTo cb (setValueWith (reRegAct cb) t v).2 = 1 ∧
    (setValueWith (reRegAct cb) t v).1.nextListeners.count cb = 1 ∧
    callsTo cb (setValue (setValueWith (reRegAct cb) t v).1 w).2 = 1 := by
  have hm0 : t.multiListeners.count cb = 0 := List.count_eq_zero.mpr hm
  have hsl0 : (if t.valueAlreadySet then []
      else t.singleListeners.getD []).count cb = 0 :=
    List.count_eq_zero.mpr hsl
  have hcnt : ((if t.valueAlreadySet then []
      else t.singleListeners.getD []) ++
      t.nextListeners ++ t.multiListeners).count cb = 1 := by
    simp [List.count_append, hsl0, hcount, hm0]
  refine ⟨?_, ?_, ?_⟩
  · rw [setValueWith_snd, callsTo_map, hcnt]
  · rw [setValueWith_reRegAct_fst]
    simp [List.count_replicate, List.count_append, hsl0, hcount, hm0]
  · rw [setValueWith_reRegAct_fst, setValue_snd, callsTo_map]
    simp [List.count_replicate, List.count_append, hsl0, hcount, hm0]

/-- Witness for C6 at concrete inputs, exercising both an initialized
tracker (next-listeners `[5]`, every-change listeners `[7]`) and an
uninitialized tracker on its first-ever cycle (pending once-listener 9,
next-listener 5, every-change listener 7); callback 5 re-registers itself
during cycle N each time. -/
theorem c6_reentrant_getNext_witness :
    (callsTo 5 (setValueWith (reRegAct 5)
      { cached := .num 0, valueAlreadySet := true, singleListeners := none
        multiListeners := [7], nextListeners := [5] } (.num 1)).2 = 1 ∧
     (setValueWith (reRegAct 5)
      { cached := .num 0, valueAlreadySet := true, singleListeners := none
        multiListeners := [7], nextListeners := [5] }
      (.num 1)).1.nextListeners.count 5 = 1 ∧
     callsTo 5 (setValue (setValueWith (reRegAct 5)
      { cached := .num 0, valueAlreadySet := true, singleListeners := none
        multiListeners := [7], nextListeners := [5] } (.num 1)).1
      (.num 2)).2 = 1) ∧
    (callsTo 5 (setValueWith (reRegAct 5)
      { cached := .undef, valueAlreadySet := false
        singleListeners := some [9]
        multiListeners := [7], nextListeners := [5] } (.num 1)).2 = 1 ∧
     (setValueWith (reRegAct 5)
      { cached := .undef, valueAlreadySet := false
        singleListeners := some [9]
        multiListeners := [7], nextListeners := [5] }
      (.num 1)).1.nextListeners.count 5 = 1 ∧
     callsTo 5 (setValue (setValueWith (reRegAct 5)
      { cached := .undef, valueAlreadySet := false
        singleListeners := some [9]
        multiListeners := [7], nextListeners := [5] } (.num 1)).1
      (.num 2)).2 = 1) :=
  ⟨c6_reentrant_getNext
    { cached := .num 0, valueAlreadySet := true, singleListeners := none
      multiListeners := [7], nextListeners := [5] }
    (.num 1) (.num 2) 5 (by decide) (by decide) (by decide),
   c6_reentrant_getNext
    { cached := .undef, valueAlreadySet := false, singleListeners := some [9]
      multiListeners := [7], nextListeners := [5] }
    (.num 1) (.num 2) 5 (by decide) (by decide) (by decide)⟩

/-- C7: `setSilent(X)` stores X into the cache (so the `cachedValue` getter
reads X afterwards), performs no callback invocation, leaves all three
listener collections unchanged, and does not touch the already-set flag. -/
theorem c7_setSilent_isolation (t : Tracker) (v : JVal) :
    cachedValue (setSilent t v).1 = v ∧
    (setSilent t v).2 = [] ∧
    (setSilent t v).1.valueAlreadySet = t.valueAlreadySet ∧
    (setSilent t v).1.singleListeners = t.singleListeners ∧
    (setSilent t v).1.multiListeners = t.multiListeners ∧
    (setSilent t v).1.nextListeners = t.nextListeners := by
  simp [setSilent, cachedValue]

/-- C8: the constructor stores the initial value in the cache, sets the
already-set flag to `forceSetFlag OR (initialValue is not undefined)`, and
creates three empty listener collections. -/
theorem c8_constructor (iv : JVal) (force : Bool) :
    (mkTracker iv force).cached = iv ∧
    (mkTracker iv force).valueAlreadySet = (force || iv.isSet) ∧
    ((mkTracker iv force).valueAlreadySet = true ↔ force = true ∨ iv ≠ .undef) ∧
    (mkTracker iv force).singleListeners = some [] ∧
    (mkTracker iv force).multiListeners = [] ∧
    (mkTracker iv force).nextListeners = [] := by
  cases force <;> cases iv <;> simp [mkTracker, JVal.isSet]

/-- C9: removal semantics.  For the every-change and next collections:
removal reports success exactly when the callback is present, removes
exactly the first occurrence (the count of the removed id drops by one,
capped at zero; every other id keeps its count), and touches no other
field; removing an absent callback leaves the collection unchanged.  For
the once collection, however, the claimed `reports failure` behaviour
fails on an initialized tracker: `removeGetOnceListener` throws a
`TypeError` there, because `_singleListeners` has been nulled. -/
theorem c9_removal_first_occurrence (t : Tracker) (cb d : Nat) :
    ((removeGetEveryChangeListener t cb).2 = decide (cb ∈ t.multiListeners) ∧
      (removeGetEveryChangeListener t cb).1.multiListeners =
        t.multiListeners.erase cb ∧
      (removeGetEveryChangeListener t cb).1.multiListeners.count d =
        t.multiListeners.count d - (if d == cb then 1 else 0) ∧
      (removeGetEveryChangeListener t cb).1.singleListeners =
        t.singleListeners ∧
      (removeGetEveryChangeListener t cb).1.nextListeners =
        t.nextListeners ∧
      (removeGetEveryChangeListener t cb).1.valueAlreadySet =
        t.valueAlreadySet ∧
      (removeGetEveryChangeListener t cb).1.cached = t.cached) ∧
    ((removeGetNextListener t cb).2 = decide (cb ∈ t.nextListeners) ∧
      (removeGetNextListener t cb).1.nextListeners =
        t.nextListeners.erase cb ∧
      (removeGetNextListener t cb).1.nextListeners.count d =
        t.nextListeners.count d - (if d == cb then 1 else 0) ∧
      (removeGetNextListener t cb).1.singleListeners = t.singleListeners ∧
      (removeGetNextListener t cb).1.multiListeners = t.multiListeners ∧
      (removeGetNextListener t cb).1.valueAlreadySet = t.valueAlreadySet ∧
      (removeGetNextListener t cb).1.cached = t.cached) ∧
    removeGetOnceListener ((setValue (mkTracker .undef false) (.num 0)).1) 5 =
      Except.error "TypeError: cannot read indexOf of null" := by
  have he : (removeGetEveryChangeListener t cb).1.multiListeners =
      t.multiListeners.erase cb := by
    by_cases h : cb ∈ t.multiListeners <;>
      simp [removeGetEveryChangeListener, h, List.erase_of_not_mem]
  have hx : (removeGetNextListener t cb).1.nextListeners =
      t.nextListeners.erase cb := by
    by_cases h : cb ∈ t.nextListeners <;>
      simp [removeGetNextListener, h, List.erase_of_not_mem]
  refine ⟨⟨?_, he, ?_, ?_, ?_, ?_, ?_⟩, ⟨?_, hx, ?_, ?_, ?_, ?_, ?_⟩, rfl⟩
  · by_cases h : cb ∈ t.multiListeners <;>
      simp [removeGetEveryChangeListener, h]
  · rw [he, List.count_erase]
    by_cases hd : d = cb
    · simp [hd]
    · simp [hd, show cb ≠ d from fun hh => hd hh.symm]
  · by_cases h : cb ∈ t.multiListeners <;>
      simp [removeGetEveryChangeListener, h]
  · by_cases h : cb ∈ t.multiListeners <;>
      simp [removeGetEveryChangeListener, h]
  · by_cases h : cb ∈ t.multiListeners <;>
      simp [removeGetEveryChangeListener, h]
  · by_cases h : cb ∈ t.multiListeners <;>
      simp [removeGetEveryChangeListener, h]
  · by_cases h : cb ∈ t.nextListeners <;>
      simp [removeGetNextListener, h]
  · rw [hx, List.count_erase]
    by_cases hd : d = cb
    · simp [hd]
    · simp [hd, show cb ≠ d from fun hh => hd hh.symm]
  · by_cases h : cb ∈ t.nextListeners <;>
      simp [removeGetNextListener, h]
  · by_cases h : cb ∈ t.nextListeners <;>
      simp [removeGetNextListener, h]
  · by_cases h : cb ∈ t.nextListeners <;>
      simp [removeGetNextListener, h]
  · by_cases h : cb ∈ t.nextListeners <;>
      simp [removeGetNextListener, h]

/-- C10: the `cachedValue` property setter is `setValue` plus a console
warning: it produces the same final state and the same invocation trace as
`setValue` with the same argument, and additionally emits a warning
message. -/
theorem c10_cachedValue_setter_is_setValue (t : Tracker) (v : JVal) :
    (cachedValueSet t v).1.1 = (setValue t v).1 ∧
    (cachedValueSet t v).1.2 = (setValue t v).2 ∧
    (cachedValueSet t v).2 ≠ [] := by
  simp [cachedValueSet]

end ChangeTracker
